import Mathlib

/-
Verification of the voice-agent session core (backend/app/services):
a shallow embedding, in Lean, of the session registry, the orchestrator's
start/end entry points, the completion workflow, transcript capture and
recovery, and the cost calculator, together with theorems about them.

Modelling conventions:
- Python floats are modelled as exact rationals (ℚ); every constant involved
  is an exact decimal literal, and the properties proved do not depend on
  IEEE rounding.
- Python dicts keyed by strings are modelled as association lists with
  insert-or-replace assignment (dictSet), first-match lookup (dictGet) and
  pop (dictPop), matching dict insertion-order semantics.
- Python truthiness on Optional values is modelled explicitly (None, 0, 0.0,
  "" and [] are falsy).
- datetime.utcnow() is modelled by passing the current time as an explicit
  rational argument; (end - start).total_seconds() becomes subtraction in ℚ.
- I/O (database writes) is modelled by returning a trace of the writes the
  code performs; external collaborators (the call store, the structured
  extraction service, transport provisioning) are oracles passed as
  arguments.
- Runtime-only handles on the session object (transport, pipeline, task,
  runner, pipeline_background_task) are omitted: no modelled operation
  reads them.  The llm_context handle is kept as the list of context
  messages, which transcript recovery reads.
- duration_computations is a ghost counter, not present in the source,
  incremented exactly when PipecatSessionState.calculate_duration runs; it
  makes re-runs of the duration computation observable.
-/

set_option autoImplicit false

namespace AiVoiceAgent

/-! ### Python dict operations on association lists -/

/-- Lookup: first binding wins (a dict holds at most one binding per key). -/
def dictGet {α : Type} : List (String × α) → String → Option α
  | [], _ => none
  | (k, v) :: rest, key => if k = key then some v else dictGet rest key

/-- Assignment `d[k] = v`: replace the existing binding in place, else append. -/
def dictSet {α : Type} : List (String × α) → String → α → List (String × α)
  | [], key, v => [(key, v)]
  | (k, w) :: rest, key, v =>
      if k = key then (key, v) :: rest else (k, w) :: dictSet rest key v

/-- Python `d.pop(k)`: remove the binding for `k` (first occurrence). -/
def dictPop {α : Type} : List (String × α) → String → List (String × α)
  | [], _ => []
  | (k, w) :: rest, key => if k = key then rest else (k, w) :: dictPop rest key

/-! ### Python truthiness helpers -/

/-- Truthiness of an `Optional[str]`: None and the empty string are falsy. -/
def truthyStr : Option String → Bool
  | none => false
  | some s => s ≠ ""

/-- Truthiness of an `Optional[float]`: None and 0.0 are falsy. -/
def truthyRat : Option ℚ → Bool
  | none => false
  | some q => q ≠ 0

/-- Truthiness of an `Optional[int]`: None and 0 are falsy. -/
def truthyNat : Option ℕ → Bool
  | none => false
  | some n => n ≠ 0

/-- Python `a or b` on an optional string. -/
def pyOrStr (v : Option String) (dflt : String) : String :=
  match v with
  | none => dflt
  | some s => if s = "" then dflt else s

/-- Python `a or b` on an optional count. -/
def pyOrNat (v : Option ℕ) (dflt : ℕ) : ℕ :=
  match v with
  | none => dflt
  | some n => if n = 0 then dflt else n

/-- Python `a or b` on an optional rational. -/
def pyOrRat (v : Option ℚ) (dflt : ℚ) : ℚ :=
  match v with
  | none => dflt
  | some q => if q = 0 then dflt else q

/-- Python `text.strip()`: drop leading and trailing whitespace. -/
def pyStrip (s : String) : String :=
  ⟨((s.data.dropWhile Char.isWhitespace).reverse.dropWhile
      Char.isWhitespace).reverse⟩

/-- Python `int(q)`: truncation toward zero. -/
def pyTrunc (q : ℚ) : ℤ :=
  if 0 ≤ q then ⌊q⌋ else -⌊-q⌋

/-- Python `int(q)` where the result is used as a count (nonnegative inputs). -/
def pyTruncNat (q : ℚ) : ℕ :=
  (pyTrunc q).toNat

/-! ### Cost schemas (schemas/cost.py) -/

/-- ServiceCost: cost breakdown for a single service component. -/
structure ServiceCost where
  service_name : String
  model : Option String
  units : ℚ
  unit_type : String
  cost_per_unit : ℚ
  cost_usd : ℚ
deriving DecidableEq, Repr

/-- CostBreakdown: complete per-call cost breakdown. -/
structure CostBreakdown where
  stt_cost : Option ServiceCost
  tts_cost : Option ServiceCost
  llm_cost : Option ServiceCost
  transport_cost : Option ServiceCost
  total_cost_usd : ℚ
  duration_seconds : ℚ
deriving DecidableEq, Repr

/-! ### CostCalculator (services/cost_calculator.py) -/

/-- STT price table: dollars per minute, keyed by service then model. -/
def STT_PRICES : List (String × List (String × ℚ)) :=
  [("deepgram", [("nova-2", 0.0043), ("base", 0.0125)]),
   ("azure_speech", [("default", 1.00 / 60)]),
   ("assemblyai", [("default", 0.00025)])]

/-- TTS price table: dollars per character, keyed by service then model. -/
def TTS_PRICES : List (String × List (String × ℚ)) :=
  [("cartesia", [("sonic", 0.000015)]),
   ("eleven_labs",
     [("turbo_v2_5", 0.0003), ("turbo_v2", 0.0003), ("multilingual_v2", 0.0003)]),
   ("azure_tts", [("neural", 0.000016)])]

/-- LLM price table: dollars per 1K tokens, keyed by service, model, direction. -/
def LLM_PRICES : List (String × List (String × List (String × ℚ))) :=
  [("openai",
     [("gpt-4o", [("input", 0.0025), ("output", 0.01)]),
      ("gpt-4o-mini", [("input", 0.00015), ("output", 0.0006)]),
      ("gpt-4-turbo", [("input", 0.01), ("output", 0.03)])]),
   ("anthropic",
     [("claude-3-5-sonnet-20241022", [("input", 0.003), ("output", 0.015)]),
      ("claude-3-5-haiku-20241022", [("input", 0.001), ("output", 0.005)])])]

/-- Transport price table: dollars per minute, keyed by transport kind. -/
def TRANSPORT_PRICES : List (String × ℚ) :=
  [("daily_webrtc", 0.0015), ("websocket", 0.0)]

/-- Python `next(iter(prices.values()), dflt)`: first value in insertion order. -/
def firstPrice {α : Type} (prices : List (String × α)) (dflt : α) : α :=
  match prices with
  | [] => dflt
  | (_, p) :: _ => p

/-- Does `needle` start `hay`? -/
def listStarts : List Char → List Char → Bool
  | [], _ => true
  | _ :: _, [] => false
  | a :: as, b :: bs => a = b && listStarts as bs

/-- Is `needle` a contiguous sublist of `hay`? -/
def listInfixOf (needle : List Char) : List Char → Bool
  | [] => listStarts needle []
  | b :: bs => listStarts needle (b :: bs) || listInfixOf needle bs

/-- Python `needle in hay` on strings: substring containment. -/
def strIn (needle hay : String) : Bool :=
  listInfixOf needle.data hay.data

/-- CostCalculator.calculate_stt_cost: audio minutes times per-minute price. -/
def calculate_stt_cost (service : String) (duration_seconds : ℚ)
    (model : Option String) : ServiceCost :=
  let minutes := duration_seconds / 60
  let service_prices := (dictGet STT_PRICES service).getD []
  let price_per_minute :=
    match model with
    | some m =>
        if truthyStr (some m) then
          match dictGet service_prices m with
          | some p => p
          | none => firstPrice service_prices 0.01
        else firstPrice service_prices 0.01
    | none => firstPrice service_prices 0.01
  { service_name := service
    model := model
    units := minutes
    unit_type := "minutes"
    cost_per_unit := price_per_minute
    cost_usd := minutes * price_per_minute }

/-- CostCalculator.calculate_tts_cost: characters times per-character price. -/
def calculate_tts_cost (service : String) (total_chars : ℕ)
    (model : Option String) : ServiceCost :=
  let service_prices := (dictGet TTS_PRICES service).getD []
  let price_per_char :=
    match model with
    | some m =>
        if truthyStr (some m) then
          match dictGet service_prices m with
          | some p => p
          | none =>
              match dictGet service_prices "default" with
              | some p => p
              | none => firstPrice service_prices 0.00002
        else
          match dictGet service_prices "default" with
          | some p => p
          | none => firstPrice service_prices 0.00002
    | none =>
        match dictGet service_prices "default" with
        | some p => p
        | none => firstPrice service_prices 0.00002
  { service_name := service
    model := model
    units := (total_chars : ℚ)
    unit_type := "characters"
    cost_per_unit := price_per_char
    cost_usd := (total_chars : ℚ) * price_per_char }

/-- CostCalculator.calculate_llm_cost: per-1K-token pricing with a
substring-match fallback for unknown models, else fixed default rates. -/
def calculate_llm_cost (service : String) (model : String)
    (input_tokens output_tokens : ℕ) : ServiceCost :=
  let service_prices := (dictGet LLM_PRICES service).getD []
  let model_prices := (dictGet service_prices model).getD []
  let model_prices :=
    if model_prices.isEmpty then
      match service_prices.find? (fun kv => strIn kv.1 model || strIn model kv.1) with
      | some kv => kv.2
      | none => []
    else model_prices
  let input_price_per_1k := (dictGet model_prices "input").getD 0.001
  let output_price_per_1k := (dictGet model_prices "output").getD 0.002
  let input_cost := ((input_tokens : ℚ) / 1000) * input_price_per_1k
  let output_cost := ((output_tokens : ℚ) / 1000) * output_price_per_1k
  let total_cost := input_cost + output_cost
  let total_tokens := input_tokens + output_tokens
  let avg_price_per_1k :=
    if 0 < total_tokens then total_cost / (total_tokens : ℚ) * 1000 else 0
  { service_name := service
    model := some model
    units := (total_tokens : ℚ)
    unit_type := "tokens"
    cost_per_unit := avg_price_per_1k
    cost_usd := total_cost }

/-- CostCalculator.calculate_transport_cost: minutes times per-minute price,
0 for unknown transport kinds. -/
def calculate_transport_cost (transport_type : String)
    (duration_seconds : ℚ) : ServiceCost :=
  let minutes := duration_seconds / 60
  let price_per_minute := (dictGet TRANSPORT_PRICES transport_type).getD 0
  { service_name := transport_type
    model := none
    units := minutes
    unit_type := "minutes"
    cost_per_unit := price_per_minute
    cost_usd := minutes * price_per_minute }

/-- CostCalculator.calculate_call_cost: the four component costs and their sum.
When input/output tokens are not both given, they are derived from
total_tokens with a 60/40 split. -/
def calculate_call_cost (stt_service tts_service llm_service transport_type : String)
    (duration_seconds : ℚ) (total_chars total_tokens : ℕ)
    (stt_model tts_model : Option String) (llm_model : String)
    (input_tokens output_tokens : Option ℕ) : CostBreakdown :=
  let stt_cost := calculate_stt_cost stt_service duration_seconds stt_model
  let tts_cost := calculate_tts_cost tts_service total_chars tts_model
  let tok :=
    match input_tokens, output_tokens with
    | some i, some o => (i, o)
    | _, _ =>
        (pyTruncNat ((total_tokens : ℚ) * 0.6), pyTruncNat ((total_tokens : ℚ) * 0.4))
  let llm_cost := calculate_llm_cost llm_service llm_model tok.1 tok.2
  let transport_cost := calculate_transport_cost transport_type duration_seconds
  let total :=
    stt_cost.cost_usd + tts_cost.cost_usd + llm_cost.cost_usd + transport_cost.cost_usd
  { stt_cost := some stt_cost
    tts_cost := some tts_cost
    llm_cost := some llm_cost
    transport_cost := some transport_cost
    total_cost_usd := total
    duration_seconds := duration_seconds }

/-! ### Pipeline configuration (schemas/pipeline.py) -/

/-- STTService enum. -/
inductive STTService
  | deepgram
  | azure_speech
  | assemblyai
deriving DecidableEq, Repr

/-- The enum's string value. -/
def STTService.value : STTService → String
  | .deepgram => "deepgram"
  | .azure_speech => "azure_speech"
  | .assemblyai => "assemblyai"

/-- TTSService enum. -/
inductive TTSService
  | eleven_labs
  | azure_tts
  | cartesia
deriving DecidableEq, Repr

/-- The enum's string value. -/
def TTSService.value : TTSService → String
  | .eleven_labs => "eleven_labs"
  | .azure_tts => "azure_tts"
  | .cartesia => "cartesia"

/-- LLMService enum. -/
inductive LLMService
  | openai
  | anthropic
deriving DecidableEq, Repr

/-- The enum's string value. -/
def LLMService.value : LLMService → String
  | .openai => "openai"
  | .anthropic => "anthropic"

/-- TransportType enum. -/
inductive TransportType
  | websocket
  | daily_webrtc
deriving DecidableEq, Repr

/-- The enum's string value. -/
def TransportType.value : TransportType → String
  | .websocket => "websocket"
  | .daily_webrtc => "daily_webrtc"

/-- STTConfig: service selection plus optional model override.  The
per-provider option blocks (deepgram/azure_speech/assemblyai) are omitted:
no modelled operation reads them. -/
structure STTConfig where
  service : STTService := .deepgram
  model : Option String := none
deriving DecidableEq, Repr

/-- TTSConfig: service selection plus optional model override. -/
structure TTSConfig where
  service : TTSService := .cartesia
  model : Option String := none
deriving DecidableEq, Repr

/-- LLMConfig: service selection plus model (defaulted, not optional). -/
structure LLMConfig where
  service : LLMService := .openai
  model : String := "gpt-4o"
deriving DecidableEq, Repr

/-- PipelineConfig: immutable provider/transport choices for one session. -/
structure PipelineConfig where
  stt_config : STTConfig := {}
  tts_config : TTSConfig := {}
  llm_config : LLMConfig := {}
  transport : TransportType := .daily_webrtc
  enable_interruptions : Bool := true
  vad_enabled : Bool := true
deriving DecidableEq, Repr

/-! ### Session state (session/session_manager.py) -/

/-- One transcript or LLM-context message: a string-keyed dict whose
relevant keys are role, content and timestamp; `msg.get(k)` on a missing
key yields None, modelled by Option fields. -/
structure Msg where
  role : Option String := none
  content : Option String := none
  timestamp : Option String := none
deriving DecidableEq, Repr

/-- PipecatSessionState: in-memory state for one session.  Runtime handles
(transport, pipeline, task, runner, pipeline_background_task) are omitted;
llm_context is kept as the list of context messages it exposes.
duration_computations is ghost instrumentation counting calculate_duration
runs (see the header comment). -/
structure PipecatSessionState where
  session_id : String
  call_id : String
  config : PipelineConfig
  system_prompt : String
  daily_room_url : Option String := none
  daily_token : Option String := none
  websocket_url : Option String := none
  llm_context : Option (List Msg) := none
  transcript : List Msg := []
  start_time : ℚ
  end_time : Option ℚ := none
  duration_seconds : Option ℚ := none
  total_input_tokens : Option ℕ := none
  total_output_tokens : Option ℕ := none
  total_chars_spoken : Option ℕ := none
  metrics_saved : Bool := false
  duration_computations : ℕ := 0
deriving DecidableEq, Repr

/-- PipecatSessionState.add_transcript_message. -/
def add_transcript_message (s : PipecatSessionState) (message : Msg) :
    PipecatSessionState :=
  { s with transcript := s.transcript ++ [message] }

/-- PipecatSessionState.calculate_duration: set end_time to now if unset
(datetimes are always truthy, so `not self.end_time` means None), then set
duration_seconds to end_time - start_time.  The ghost counter records the
run. -/
def calculate_duration (s : PipecatSessionState) (now : ℚ) : PipecatSessionState :=
  let et := match s.end_time with
    | none => now
    | some e => e
  { s with
      end_time := some et
      duration_seconds := some (et - s.start_time)
      duration_computations := s.duration_computations + 1 }

/-! ### SessionManager (session/session_manager.py) -/

/-- SessionManager: the registry's two partitions. -/
structure SessionManager where
  active_sessions : List (String × PipecatSessionState) := []
  completed_sessions : List (String × PipecatSessionState) := []
deriving DecidableEq, Repr

/-- SessionManager.create_session: construct a fresh session and assign it
into active_sessions unconditionally (the source performs no duplicate
check).  start_time defaults to utcnow, passed here as `now`. -/
def create_session (sm : SessionManager) (session_id call_id : String)
    (config : PipelineConfig) (system_prompt : String) (now : ℚ) :
    SessionManager × PipecatSessionState :=
  let session : PipecatSessionState :=
    { session_id := session_id
      call_id := call_id
      config := config
      system_prompt := system_prompt
      start_time := now }
  ({ sm with active_sessions := dictSet sm.active_sessions session_id session },
   session)

/-- SessionManager.get_session: active first, then completed. -/
def get_session (sm : SessionManager) (session_id : String) :
    Option PipecatSessionState :=
  match dictGet sm.active_sessions session_id with
  | some s => some s
  | none => dictGet sm.completed_sessions session_id

/-- SessionManager.get_active_session. -/
def get_active_session (sm : SessionManager) (session_id : String) :
    Option PipecatSessionState :=
  dictGet sm.active_sessions session_id

/-- SessionManager.get_completed_session. -/
def get_completed_session (sm : SessionManager) (session_id : String) :
    Option PipecatSessionState :=
  dictGet sm.completed_sessions session_id

/-- SessionManager.mark_completed: if the id is not active, log a warning
and return (the source raises nothing); else recompute the duration when
`not session.duration_seconds` (None or 0.0 both count as unset) and move
the session from active_sessions to completed_sessions. -/
def mark_completed (sm : SessionManager) (session_id : String) (now : ℚ) :
    SessionManager :=
  match dictGet sm.active_sessions session_id with
  | none => sm
  | some session =>
      let session :=
        if truthyRat session.duration_seconds then session
        else calculate_duration session now
      { active_sessions := dictPop sm.active_sessions session_id
        completed_sessions := dictSet sm.completed_sessions session_id session }

/-- SessionManager.get_active_session_ids. -/
def get_active_session_ids (sm : SessionManager) : List String :=
  sm.active_sessions.map Prod.fst

/-! ### Database DTOs (pipecat/db/models.py) -/

/-- CallUpdateData: the status update written by the completion workflow.
The wall-clock ended_at/updated_at timestamps are omitted (no modelled
property reads them). -/
structure CallUpdateData where
  status : String
  duration_seconds : Option ℤ := none
  transcript : Option String := none
deriving DecidableEq, Repr

/-- CallRecord: the call-store record, reduced to the fields the completion
workflow reads when building the extraction context. -/
structure CallRecord where
  id : String
  agent_id : String
  driver_name : Option String := none
  load_number : Option String := none
  origin : Option String := none
  destination : Option String := none
  status : String := "in_progress"
deriving DecidableEq, Repr

/-- CallContext: context passed to structured extraction. -/
structure CallContext where
  driver_name : Option String := none
  load_number : Option String := none
  origin : Option String := none
  destination : Option String := none
deriving DecidableEq, Repr

/-- The record the black-box structured-extraction service returns,
reduced to the outcome fields the claims mention. -/
structure ExtractedResults where
  call_outcome : String
  is_emergency : Bool := false
deriving DecidableEq, Repr

/-- CallResultsData: the structured record upserted into the results store.
Optional extraction detail fields not read by any modelled property are
omitted; cost_breakdown models the "cost_breakdown" entry that
_merge_cost_breakdown writes into raw_extraction. -/
structure CallResultsData where
  call_id : String
  call_outcome : String
  is_emergency : Bool := false
  cost_breakdown : Option CostBreakdown := none
deriving DecidableEq, Repr

/-! ### TranscriptFormatter (pipecat/transcript_formatter.py) -/

/-- TranscriptFormatter.format_to_string: "ROLE: content" lines joined by
blank lines, keeping only messages with truthy content; a missing role
formats as "UNKNOWN". -/
def format_to_string (transcript : List Msg) : String :=
  if transcript.isEmpty then ""
  else
    String.intercalate "\n\n"
      ((transcript.filter (fun m => truthyStr m.content)).map
        (fun m => (m.role.getD "unknown").toUpper ++ ": " ++ m.content.getD ""))

/-! ### CallCompletionService (pipecat/call_completion_service.py) -/

/-- The external collaborators the completion workflow calls, as oracles:
the call-store lookups and the black-box structured extraction.  A `none`
from process_call_transcript models extraction raising (the source catches
the exception and falls back to the default record). -/
structure CompletionEnv where
  find_call_by_session_id : String → Option String
  get_call_by_id : String → Option CallRecord
  process_call_transcript : String → CallContext → Option ExtractedResults

/-- The trace of database writes a completion run performs. -/
structure DbTrace where
  call_updates : List (String × CallUpdateData) := []
  results_upserts : List CallResultsData := []
deriving DecidableEq, Repr

/-- CallCompletionService._get_default_results. -/
def get_default_results (call_id : String) : CallResultsData :=
  { call_id := call_id
    call_outcome := "In-Transit Update"
    is_emergency := false }

/-- The CallUpdateData built by CallCompletionService._update_call_status:
status completed, duration truncated to int when truthy (None or 0.0 → no
duration), formatted transcript when non-empty. -/
def update_call_status_data (s : PipecatSessionState) : CallUpdateData :=
  { status := "completed"
    duration_seconds :=
      if truthyRat s.duration_seconds then some (pyTrunc (s.duration_seconds.getD 0))
      else none
    transcript :=
      if s.transcript.isEmpty then none
      else some (format_to_string s.transcript) }

/-- CallCompletionService._extract_structured_data: default record when the
transcript is empty, the call record cannot be fetched, or extraction
fails; else the extracted record. -/
def extract_structured_data (env : CompletionEnv) (call_id : String)
    (s : PipecatSessionState) : CallResultsData :=
  if s.transcript.isEmpty then get_default_results call_id
  else
    match env.get_call_by_id call_id with
    | none => get_default_results call_id
    | some call_record =>
        let call_context : CallContext :=
          { driver_name := call_record.driver_name
            load_number := call_record.load_number
            origin := call_record.origin
            destination := call_record.destination }
        match env.process_call_transcript (format_to_string s.transcript) call_context with
        | none => get_default_results call_id
        | some r =>
            { call_id := call_id
              call_outcome := r.call_outcome
              is_emergency := r.is_emergency }

/-- CallCompletionService._calculate_cost_breakdown: estimate chars/tokens
from duration (300 chars, 400 tokens per minute, 60/40 input/output) and
use the metered values only when truthy, then delegate to
calculate_call_cost with the session's service/model selections. -/
def calculate_cost_breakdown (s : PipecatSessionState) : CostBreakdown :=
  let duration_minutes := (pyOrRat s.duration_seconds 0) / 60
  let estimated_chars := pyTruncNat (duration_minutes * 300)
  let estimated_total_tokens := pyTruncNat (duration_minutes * 400)
  let estimated_input_tokens := pyTruncNat (duration_minutes * 240)
  let estimated_output_tokens := pyTruncNat (duration_minutes * 160)
  let total_chars := pyOrNat s.total_chars_spoken estimated_chars
  let input_tokens := pyOrNat s.total_input_tokens estimated_input_tokens
  let output_tokens := pyOrNat s.total_output_tokens estimated_output_tokens
  let total_tokens :=
    pyOrNat (some (s.total_input_tokens.getD 0 + s.total_output_tokens.getD 0))
      estimated_total_tokens
  calculate_call_cost
    s.config.stt_config.service.value
    s.config.tts_config.service.value
    s.config.llm_config.service.value
    s.config.transport.value
    (pyOrRat s.duration_seconds 0)
    total_chars
    total_tokens
    (some (pyOrStr s.config.stt_config.model "nova-2"))
    (some (pyOrStr s.config.tts_config.model "sonic-english"))
    s.config.llm_config.model
    (some input_tokens)
    (some output_tokens)

/-- CallCompletionService._merge_cost_breakdown: store the cost breakdown
in the record's raw_extraction side channel. -/
def merge_cost_breakdown (results : CallResultsData) (cb : CostBreakdown) :
    CallResultsData :=
  { results with cost_breakdown := some cb }

/-- CallCompletionService._process_and_store_results: extract, price, merge
and upsert one structured record. -/
def process_and_store_results (env : CompletionEnv) (call_id : String)
    (s : PipecatSessionState) : List CallResultsData :=
  let results_data := extract_structured_data env call_id s
  let cost_breakdown := calculate_cost_breakdown s
  [merge_cost_breakdown results_data cost_breakdown]

/-- CallCompletionService.complete_call: look the call up by session id
(False and no writes when absent), write the status update, and process
results only when `session.duration_seconds and session.duration_seconds
> 0`; a zero or unset duration skips the results upsert entirely. -/
def complete_call (env : CompletionEnv) (session_id : String)
    (s : PipecatSessionState) : Bool × DbTrace :=
  match env.find_call_by_session_id session_id with
  | none => (false, {})
  | some call_id =>
      let upserts :=
        if truthyRat s.duration_seconds ∧ 0 < s.duration_seconds.getD 0 then
          process_and_store_results env call_id s
        else []
      (true,
       { call_updates := [(call_id, update_call_status_data s)]
         results_upserts := upserts })

/-! ### SessionFinalizer (pipecat/session_finalizer.py) -/

/-- SessionFinalizer._extract_from_context: when an LLM context exists,
replace the transcript with the context messages whose role is "user" or
"assistant" and whose content is truthy, in context order. -/
def extract_from_context (s : PipecatSessionState) : PipecatSessionState :=
  match s.llm_context with
  | none => s
  | some msgs =>
      { s with
          transcript := msgs.filter (fun m =>
            decide (m.role = some "user" ∨ m.role = some "assistant") &&
              truthyStr m.content) }

/-- SessionFinalizer.finalize: compute duration when end_time is unset,
recover the transcript from the LLM context only when the capture buffer
is empty, then run completion once while flipping metrics_saved. -/
def finalize (env : CompletionEnv) (s : PipecatSessionState) (now : ℚ) :
    PipecatSessionState × DbTrace :=
  let s := if s.end_time.isNone then calculate_duration s now else s
  let s := if s.transcript.isEmpty then extract_from_context s else s
  if s.metrics_saved then (s, {})
  else
    let r := complete_call env s.session_id s
    ({ s with metrics_saved := true }, r.2)

/-! ### TranscriptCaptureProcessor (pipecat/transcript_capture.py) -/

/-- TranscriptCaptureProcessor._capture_user_speech: append a user entry
with stripped content, only when the text is truthy and strips non-empty. -/
def capture_user_speech (s : PipecatSessionState) (text time_stamp : String) :
    PipecatSessionState :=
  if text ≠ "" ∧ pyStrip text ≠ "" then
    add_transcript_message s
      { role := some "user", content := some (pyStrip text), timestamp := some time_stamp }
  else s

/-- TranscriptCaptureProcessor._capture_bot_response: append an assistant
entry with stripped content, only when the text is truthy and strips
non-empty. -/
def capture_bot_response (s : PipecatSessionState) (text time_stamp : String) :
    PipecatSessionState :=
  if text ≠ "" ∧ pyStrip text ≠ "" then
    add_transcript_message s
      { role := some "assistant", content := some (pyStrip text), timestamp := some time_stamp }
  else s

/-! ### PipecatService orchestrator (pipecat/pipecat_service.py) -/

/-- PipecatCallResponse. -/
structure PipecatCallResponse where
  session_id : String
  daily_room_url : Option String := none
  daily_token : Option String := none
  websocket_url : Option String := none
  status : String := "initialized"
deriving DecidableEq, Repr

/-- Outcome of DailyRoomService.create_room, an external network call:
either room credentials or a raised provisioning error. -/
inductive ProvisionOutcome
  | ok (room_url : String) (token : String)
  | err (msg : String)
deriving DecidableEq, Repr

/-- PipecatService.start_call routed to _start_daily_call: create the
session state in the registry first, then provision the Daily room.  When
provisioning raises, the exception propagates to the caller and nothing
removes the session from active_sessions.  The generated uuid session id,
the current time and the provisioning outcome are explicit arguments; the
placeholder filling of the prompt and the background pipeline launch are
outside the model.  The session object is shared with the registry by
reference in the source; mutating it after provisioning is modelled by
writing the updated session back into active_sessions. -/
def start_call_daily (sm : SessionManager) (session_id agent_id : String)
    (config : PipelineConfig) (system_prompt : String) (now : ℚ)
    (provision : ProvisionOutcome) :
    SessionManager × Except String PipecatCallResponse :=
  let created := create_session sm session_id agent_id config system_prompt now
  match provision with
  | .err msg => (created.1, .error msg)
  | .ok room_url token =>
      let session :=
        { created.2 with daily_room_url := some room_url, daily_token := some token }
      ({ created.1 with
           active_sessions := dictSet created.1.active_sessions session_id session },
       .ok { session_id := session_id
             daily_room_url := some room_url
             daily_token := some token })

/-- The dictionary PipecatService.end_call returns. -/
structure EndCallResult where
  session_id : String
  transcript : List Msg
  duration_seconds : Option ℚ
  cost_breakdown : CostBreakdown
  status : String := "completed"
deriving DecidableEq, Repr

/-- PipecatService._get_session_metrics: price the session from its stored
metrics (or-defaults for the unset ones) and package the response. -/
def get_session_metrics (s : PipecatSessionState) : EndCallResult :=
  { session_id := s.session_id
    transcript := s.transcript
    duration_seconds := s.duration_seconds
    cost_breakdown :=
      calculate_call_cost
        s.config.stt_config.service.value
        s.config.tts_config.service.value
        s.config.llm_config.service.value
        s.config.transport.value
        (pyOrRat s.duration_seconds 0)
        (s.total_chars_spoken.getD 0)
        (s.total_input_tokens.getD 0 + s.total_output_tokens.getD 0)
        (some (pyOrStr s.config.stt_config.model "nova-2"))
        (some (pyOrStr s.config.tts_config.model "sonic-english"))
        s.config.llm_config.model
        (some (s.total_input_tokens.getD 0))
        (some (s.total_output_tokens.getD 0)) }

/-- The in-place session mutation the active end branch performs before the
move: recompute the duration when `not session.duration_seconds` and,
nested inside that branch, run complete_call once while flipping
metrics_saved; returns the updated session and the database writes. -/
def end_call_update_session (env : CompletionEnv) (session_id : String)
    (now : ℚ) (s : PipecatSessionState) : PipecatSessionState × DbTrace :=
  if truthyRat s.duration_seconds then (s, {})
  else
    let s1 := calculate_duration s now
    if s1.metrics_saved then (s1, {})
    else
      let r := complete_call env session_id s1
      ({ s1 with metrics_saved := true }, r.2)

/-- The main branch of PipecatService.end_call, reached for a session found
in active_sessions and not in completed_sessions: apply the in-place
session update, write the (reference-shared) session back, move it
active → completed, and answer with the metrics of the moved session.
Pipeline-task cancellation only touches the omitted runtime handle. -/
def end_call_active (env : CompletionEnv) (sm : SessionManager)
    (session_id : String) (now : ℚ) (s : PipecatSessionState) :
    SessionManager × DbTrace × Option EndCallResult :=
  let step := end_call_update_session env session_id now s
  let sm1 : SessionManager :=
    { sm with active_sessions := dictSet sm.active_sessions session_id step.1 }
  let sm2 := mark_completed sm1 session_id now
  let final := (dictGet sm2.completed_sessions session_id).getD step.1
  (sm2, step.2, some (get_session_metrics final))

/-- PipecatService.end_call: None (no throw) when the id is unknown to both
partitions; the stored metrics of the completed session when the id is
already completed, with no state change and no writes; else the active
completion branch. -/
def end_call (env : CompletionEnv) (sm : SessionManager) (session_id : String)
    (now : ℚ) : SessionManager × DbTrace × Option EndCallResult :=
  match get_session sm session_id with
  | none => (sm, {}, none)
  | some _ =>
      match get_completed_session sm session_id with
      | some completed_session => (sm, {}, some (get_session_metrics completed_session))
      | none =>
          match get_active_session sm session_id with
          | none => (sm, {}, none)
          | some s => end_call_active env sm session_id now s

/-! ### Spec-side predicate for the transcript-recovery refinement -/

/-- Written from the spec's words, for the refinement statement about
transcript recovery: keep exactly the context-log messages whose role is
user or assistant and whose content is non-empty. -/
def spec_recovery_keep (m : Msg) : Prop :=
  (m.role = some "user" ∨ m.role = some "assistant") ∧
    m.content ≠ none ∧ m.content ≠ some ""

instance (m : Msg) : Decidable (spec_recovery_keep m) := by
  unfold spec_recovery_keep
  infer_instance

/-! ### Concrete fixtures used by witnesses and counterexamples -/

/-- A completion environment whose call store knows session ids and whose
extraction never succeeds. -/
def env_found : CompletionEnv :=
  { find_call_by_session_id := fun _ => some "call-1"
    get_call_by_id := fun _ => none
    process_call_transcript := fun _ _ => none }

/-- A completion environment with an empty call store. -/
def env_empty : CompletionEnv :=
  { find_call_by_session_id := fun _ => none
    get_call_by_id := fun _ => none
    process_call_transcript := fun _ _ => none }

/-- An existing active session (for the duplicate-create counterexample). -/
def c2_old : PipecatSessionState :=
  { session_id := "sess-1"
    call_id := "call-A"
    config := {}
    system_prompt := "old prompt"
    start_time := 0 }

/-- A completed session with stored metrics. -/
def c3_completed : PipecatSessionState :=
  { session_id := "sess-1"
    call_id := "call-A"
    config := {}
    system_prompt := "p"
    start_time := 0
    end_time := some 4
    duration_seconds := some 4
    metrics_saved := true }

/-- A websocket session that exited with zero duration and no metered
usage, transcript captured nonetheless. -/
def c4_sess : PipecatSessionState :=
  { session_id := "sess-1"
    call_id := "call-A"
    config := { transport := .websocket }
    system_prompt := "p"
    start_time := 7
    end_time := some 7
    duration_seconds := some 0
    transcript := [{ role := some "user", content := some "hi", timestamp := some "t0" }] }

/-- A completed session with nonzero duration and a captured transcript. -/
def c5_sess : PipecatSessionState :=
  { session_id := "sess-1"
    call_id := "call-A"
    config := {}
    system_prompt := "p"
    start_time := 0
    end_time := some 90
    duration_seconds := some 90
    transcript := [{ role := some "user", content := some "hi", timestamp := some "t0" }]
    metrics_saved := true }

/-- A registry holding only the completed session c5_sess. -/
def c5_sm : SessionManager := { completed_sessions := [("sess-1", c5_sess)] }

/-- An active session whose first computed duration was exactly 0 (end_time
frozen at start_time, one duration computation recorded). -/
def c6_sess : PipecatSessionState :=
  { session_id := "sess-1"
    call_id := "call-A"
    config := {}
    system_prompt := "p"
    start_time := 10
    end_time := some 10
    duration_seconds := some 0
    duration_computations := 1 }

/-- An active session with a nonzero duration already assigned. -/
def c6_wit_sess : PipecatSessionState :=
  { session_id := "sess-1"
    call_id := "call-A"
    config := {}
    system_prompt := "p"
    start_time := 4
    end_time := some 10
    duration_seconds := some 6
    metrics_saved := true }

/-- A context log holding the seeded system turn, two real turns, and an
empty assistant turn. -/
def c7_ctx : List Msg :=
  [{ role := some "system", content := some "You are an agent." },
   { role := some "user", content := some "hi" },
   { role := some "assistant", content := some "hello" },
   { role := some "assistant", content := some "" }]

/-- A session whose capture buffer is empty but whose LLM context is
c7_ctx. -/
def c7_sess : PipecatSessionState :=
  { session_id := "sess-1"
    call_id := "call-A"
    config := {}
    system_prompt := "p"
    start_time := 0
    end_time := some 5
    llm_context := some c7_ctx
    metrics_saved := true }

/-- A session with a non-empty capture buffer and an overlapping context. -/
def c7_sess_captured : PipecatSessionState :=
  { c7_sess with
      transcript :=
        [{ role := some "user", content := some "hi", timestamp := some "t0" },
         { role := some "assistant", content := some "hello", timestamp := some "t1" }] }

/-- A ten-minute session with no metered chars or tokens. -/
def c8_sess : PipecatSessionState :=
  { session_id := "sess-1"
    call_id := "call-A"
    config := {}
    system_prompt := "p"
    start_time := 0
    end_time := some 600
    duration_seconds := some 600 }

/-- A session whose context log carries a whitespace-only user turn. -/
def c10_sess : PipecatSessionState :=
  { session_id := "sess-1"
    call_id := "call-A"
    config := {}
    system_prompt := "p"
    start_time := 0
    end_time := some 5
    llm_context := some [{ role := some "user", content := some "   " }]
    metrics_saved := true }

/-- A context log with a seeded system turn and an ordinary user turn. -/
def c10_ctx : List Msg :=
  [{ role := some "system", content := some "seed" },
   { role := some "user", content := some "hi" }]

/-- A session whose context log is c10_ctx (C10 witness). -/
def c10_wit_sess : PipecatSessionState :=
  { session_id := "sess-1"
    call_id := "call-A"
    config := {}
    system_prompt := "p"
    start_time := 0
    llm_context := some c10_ctx }

/-! ### Dictionary lemmas -/

theorem dictGet_of_not_mem {α : Type} {k : String} :
    ∀ {d : List (String × α)}, k ∉ d.map Prod.fst → dictGet d k = none := by
  intro d
  induction d with
  | nil => intro _; rfl
  | cons kv rest ih =>
      intro h
      obtain ⟨k₁, v₁⟩ := kv
      simp only [List.map_cons, List.mem_cons] at h
      push_neg at h
      have hk : ¬ k₁ = k := fun he => h.1 he.symm
      simpa [dictGet, hk] using ih h.2

theorem dictGet_set_self {α : Type} (d : List (String × α)) (k : String) (v : α) :
    dictGet (dictSet d k v) k = some v := by
  induction d with
  | nil => simp [dictSet, dictGet]
  | cons kv rest ih =>
      obtain ⟨k₁, v₁⟩ := kv
      by_cases h : k₁ = k <;> simp [dictSet, dictGet, h, ih]

theorem dictGet_pop_self {α : Type} (d : List (String × α)) (k : String)
    (h : (d.map Prod.fst).Nodup) : dictGet (dictPop d k) k = none := by
  induction d with
  | nil => rfl
  | cons kv rest ih =>
      obtain ⟨k₁, v₁⟩ := kv
      simp only [List.map_cons, List.nodup_cons] at h
      by_cases hk : k₁ = k
      · subst hk
        simpa [dictPop] using dictGet_of_not_mem h.1
      · simp [dictPop, hk, dictGet, ih h.2]

/-! ### Claim C1 -/

/-- Claim C1 as stated is false: with a simulated Daily-room provisioning
failure, start fails with the provisioning error, yet the session registry
still holds the session in the active partition — the session is committed
before provisioning and is not rolled back. -/
theorem start_provisioning_failure_keeps_entry_cex :
    (start_call_daily {} "sess-1" "agent-1" {} "prompt" 0 (.err "room failed")).2
        = Except.error "room failed" ∧
    (dictGet (start_call_daily {} "sess-1" "agent-1" {} "prompt" 0
        (.err "room failed")).1.active_sessions "sess-1").isSome = true := by
  exact ⟨rfl, rfl⟩

/-- Claim C1 (amended): if transport provisioning fails during start, then
start fails with the provisioning error, but the freshly created session
remains committed in the active partition (the completed partition is
unchanged); the registry is not rolled back. -/
theorem start_provisioning_failure_session_stays_active
    (sm : SessionManager) (session_id agent_id : String) (config : PipelineConfig)
    (system_prompt : String) (now : ℚ) (msg : String) :
    (start_call_daily sm session_id agent_id config system_prompt now (.err msg)).2
        = Except.error msg ∧
    dictGet (start_call_daily sm session_id agent_id config system_prompt now
        (.err msg)).1.active_sessions session_id
      = some { session_id := session_id, call_id := agent_id, config := config,
               system_prompt := system_prompt, start_time := now } ∧
    (start_call_daily sm session_id agent_id config system_prompt now
        (.err msg)).1.completed_sessions = sm.completed_sessions := by
  refine ⟨rfl, ?_, rfl⟩
  simp [start_call_daily, create_session, dictGet_set_self]

/-! ### Claim C2 -/

/-- Claim C2 as stated is false: creating a session whose id already exists
in the active partition raises no DuplicateSessionError (create_session is
total and returns normally) and does not leave the existing session
unchanged — the stored session is silently replaced by the new one. -/
theorem create_duplicate_replaces_cex :
    dictGet (create_session { active_sessions := [("sess-1", c2_old)] }
        "sess-1" "call-B" {} "new prompt" 5).1.active_sessions "sess-1"
      = some { session_id := "sess-1", call_id := "call-B", config := {},
               system_prompt := "new prompt", start_time := 5 } ∧
    some c2_old
      ≠ dictGet (create_session { active_sessions := [("sess-1", c2_old)] }
          "sess-1" "call-B" {} "new prompt" 5).1.active_sessions "sess-1" := by
  constructor
  · rfl
  · decide

/-- Claim C2 (amended): create performs no duplicate check: for every
registry state it returns normally with a freshly built session, stores it
in the active partition under the given id — replacing any active session
already stored there — and leaves the completed partition untouched (so an
id that is already completed becomes present in both partitions). -/
theorem create_session_overwrites (sm : SessionManager) (session_id call_id : String)
    (config : PipelineConfig) (system_prompt : String) (now : ℚ) :
    (create_session sm session_id call_id config system_prompt now).2
      = { session_id := session_id, call_id := call_id, config := config,
          system_prompt := system_prompt, start_time := now } ∧
    dictGet (create_session sm session_id call_id config system_prompt now).1.active_sessions
        session_id
      = some ((create_session sm session_id call_id config system_prompt now).2) ∧
    (create_session sm session_id call_id config system_prompt now).1.completed_sessions
      = sm.completed_sessions := by
  refine ⟨rfl, ?_, rfl⟩
  simp [create_session, dictGet_set_self]

/-! ### Claim C3 -/

/-- Claim C3 as stated is false: markCompleted on an id that is not in the
active partition (here: a completed id) does not fail with NotActiveError —
the source logs a warning and returns normally, leaving the registry
unchanged, which is why the model is a total function. -/
theorem mark_completed_not_active_cex :
    mark_completed { completed_sessions := [("sess-1", c3_completed)] } "sess-1" 9
      = { completed_sessions := [("sess-1", c3_completed)] } := by
  rfl

/-- Claim C3 (amended): markCompleted never raises: when session_id is not
active it returns with the registry unchanged (a warning is only logged);
when session_id is active it moves the session atomically from active to
completed — afterwards it is absent from active and present in completed —
computing the duration first whenever duration_seconds is unset or zero,
and keeping the session unchanged when a nonzero duration is already set. -/
theorem mark_completed_spec (sm : SessionManager) (session_id : String) (now : ℚ)
    (hnd : (sm.active_sessions.map Prod.fst).Nodup) :
    (dictGet sm.active_sessions session_id = none →
      mark_completed sm session_id now = sm) ∧
    (∀ s, dictGet sm.active_sessions session_id = some s →
      dictGet (mark_completed sm session_id now).active_sessions session_id = none ∧
      ∃ s₂, dictGet (mark_completed sm session_id now).completed_sessions session_id
              = some s₂ ∧
            s₂.duration_seconds.isSome = true ∧
            (truthyRat s.duration_seconds = true → s₂ = s) ∧
            (s.duration_seconds = none → s₂ = calculate_duration s now)) := by
  constructor
  · intro h
    simp [mark_completed, h]
  · intro s hs
    refine ⟨?_, ?_⟩
    · simp only [mark_completed, hs]
      exact dictGet_pop_self sm.active_sessions session_id hnd
    · refine ⟨if truthyRat s.duration_seconds then s else calculate_duration s now,
        ?_, ?_, ?_, ?_⟩
      · simp only [mark_completed, hs]
        exact dictGet_set_self _ _ _
      · cases h : truthyRat s.duration_seconds with
        | false => simp [h, calculate_duration]
        | true =>
            rw [if_pos rfl]
            cases hd : s.duration_seconds with
            | none => rw [hd] at h; simp [truthyRat] at h
            | some d => simp [hd]
      · intro h; simp [h]
      · intro h
        have : truthyRat s.duration_seconds = false := by simp [truthyRat, h]
        simp [this]

/-- Witness for mark_completed_spec: a concrete registry with one active
session holding a nonzero duration, moved to completed by markCompleted. -/
theorem mark_completed_spec_witness :
    dictGet (mark_completed { active_sessions := [("sess-1", c6_wit_sess)] }
        "sess-1" 99).active_sessions "sess-1" = none ∧
    ∃ s₂, dictGet (mark_completed { active_sessions := [("sess-1", c6_wit_sess)] }
            "sess-1" 99).completed_sessions "sess-1" = some s₂ ∧
          s₂.duration_seconds.isSome = true ∧
          (truthyRat c6_wit_sess.duration_seconds = true → s₂ = c6_wit_sess) ∧
          (c6_wit_sess.duration_seconds = none →
            s₂ = calculate_duration c6_wit_sess 99) :=
  by
  have hnd : (List.map Prod.fst
      [("sess-1", c6_wit_sess)]).Nodup := by simp
  have hs : dictGet [("sess-1", c6_wit_sess)] "sess-1" = some c6_wit_sess := by
    simp [dictGet]
  exact (mark_completed_spec { active_sessions := [("sess-1", c6_wit_sess)] }
    "sess-1" 99 hnd).2 c6_wit_sess hs

/-! ### Claim C4 -/

theorem calculate_stt_cost_zero (service : String) (model : Option String) :
    (calculate_stt_cost service 0 model).cost_usd = 0 := by
  simp only [calculate_stt_cost]
  norm_num

theorem calculate_tts_cost_zero (service : String) (model : Option String) :
    (calculate_tts_cost service 0 model).cost_usd = 0 := by
  simp only [calculate_tts_cost]
  norm_num

theorem calculate_llm_cost_zero (service model : String) :
    (calculate_llm_cost service model 0 0).cost_usd = 0 := by
  simp only [calculate_llm_cost]
  norm_num

theorem calculate_transport_cost_zero (transport_type : String) :
    (calculate_transport_cost transport_type 0).cost_usd = 0 := by
  simp only [calculate_transport_cost]
  norm_num

/-- Pricing at zero duration, zero characters and zero tokens yields a zero
total, whatever the selected services, models and transport. -/
theorem calculate_call_cost_zero (stt tts llm tr : String) (tok : ℕ)
    (sm tm : Option String) (lm : String) :
    (calculate_call_cost stt tts llm tr 0 0 tok sm tm lm
        (some 0) (some 0)).total_cost_usd = 0 := by
  show (calculate_stt_cost stt 0 sm).cost_usd + (calculate_tts_cost tts 0 tm).cost_usd
      + (calculate_llm_cost llm lm 0 0).cost_usd
      + (calculate_transport_cost tr 0).cost_usd = 0
  rw [calculate_stt_cost_zero, calculate_tts_cost_zero, calculate_llm_cost_zero,
    calculate_transport_cost_zero]
  norm_num

/-- Claim C4 as stated is false: completing a zero-duration session (with a
captured transcript and a resolvable call record) performs no upsert to the
results store at all — the default record {outcome "In-Transit Update",
is_emergency false} is NOT persisted; only the status update is written. -/
theorem zero_duration_no_results_upsert_cex :
    (complete_call env_found "sess-1" c4_sess).2.results_upserts = [] ∧
    (complete_call env_found "sess-1" c4_sess).1 = true ∧
    (complete_call env_found "sess-1" c4_sess).2.call_updates.length = 1 := by
  exact ⟨rfl, rfl, rfl⟩

/-- Claim C4 (amended): when finalize's completion step runs for a session
whose duration_seconds is unset or 0, results processing is skipped
entirely: no structured record (not even the default one) is upserted to
the results store, and only the single status update is written, while
complete_call still reports success; the default record is used only on
the duration>0 path when the transcript is empty or extraction fails.  For
a socket-transport session with zero duration and no metered usage the
computed cost-breakdown total is 0. -/
theorem complete_call_zero_duration (env : CompletionEnv)
    (session_id call_id : String) (s : PipecatSessionState)
    (hfind : env.find_call_by_session_id session_id = some call_id)
    (hdur : s.duration_seconds = none ∨ s.duration_seconds = some 0)
    (hws : s.config.transport = TransportType.websocket)
    (hchars : s.total_chars_spoken = none)
    (hin : s.total_input_tokens = none)
    (hout : s.total_output_tokens = none) :
    complete_call env session_id s
      = (true, { call_updates := [(call_id, update_call_status_data s)],
                 results_upserts := [] }) ∧
    (calculate_cost_breakdown s).total_cost_usd = 0 := by
  have htr : truthyRat s.duration_seconds = false := by
    rcases hdur with h | h <;> simp [truthyRat, h]
  have hd0 : pyOrRat s.duration_seconds 0 = 0 := by
    rcases hdur with h | h <;> simp [pyOrRat, h]
  constructor
  · simp [complete_call, hfind, htr]
  · have e300 : pyTruncNat ((0 : ℚ) / 60 * 300) = 0 := by
      norm_num [pyTruncNat, pyTrunc, Int.toNat_ofNat]
    have e240 : pyTruncNat ((0 : ℚ) / 60 * 240) = 0 := by
      norm_num [pyTruncNat, pyTrunc, Int.toNat_ofNat]
    have e160 : pyTruncNat ((0 : ℚ) / 60 * 160) = 0 := by
      norm_num [pyTruncNat, pyTrunc, Int.toNat_ofNat]
    simp only [calculate_cost_breakdown, hd0, hchars, hin, hout, e300, e240, e160,
      Option.getD_none, Option.getD_some, Nat.add_zero, pyOrNat]
    simpa using calculate_call_cost_zero
      s.config.stt_config.service.value s.config.tts_config.service.value
      s.config.llm_config.service.value s.config.transport.value
      (pyTruncNat ((0 : ℚ) / 60 * 400))
      (some (pyOrStr s.config.stt_config.model "nova-2"))
      (some (pyOrStr s.config.tts_config.model "sonic-english"))
      s.config.llm_config.model

/-- Witness for complete_call_zero_duration at the concrete fixtures. -/
theorem complete_call_zero_duration_witness :
    complete_call env_found "sess-1" c4_sess
      = (true, { call_updates := [("call-1", update_call_status_data c4_sess)],
                 results_upserts := [] }) ∧
    (calculate_cost_breakdown c4_sess).total_cost_usd = 0 :=
  complete_call_zero_duration env_found "sess-1" "call-1" c4_sess rfl
    (Or.inr rfl) rfl rfl rfl rfl

/-! ### Claim C5 -/

/-- Claim C5: end on an id unknown to both partitions answers not-found
(None) without raising and without touching the registry; end on an
already-completed id returns the metrics computed from the stored, frozen
session, changes no state, performs no database write (no completion
work), and returns the same value on every repeated call. -/
theorem end_call_unknown_and_completed (env : CompletionEnv) (sm : SessionManager)
    (session_id : String) (now now₂ : ℚ) :
    ((dictGet sm.active_sessions session_id = none ∧
        dictGet sm.completed_sessions session_id = none) →
      end_call env sm session_id now = (sm, {}, none)) ∧
    (∀ cs, dictGet sm.completed_sessions session_id = some cs →
      end_call env sm session_id now = (sm, {}, some (get_session_metrics cs)) ∧
      end_call env sm session_id now = end_call env sm session_id now₂) := by
  constructor
  · rintro ⟨h1, h2⟩
    simp [end_call, get_session, h1, h2]
  · intro cs hcs
    have hmain : ∀ t : ℚ,
        end_call env sm session_id t = (sm, {}, some (get_session_metrics cs)) := by
      intro t
      cases ha : dictGet sm.active_sessions session_id with
      | none => simp [end_call, get_session, get_completed_session, ha, hcs]
      | some s => simp [end_call, get_session, get_completed_session, ha, hcs]
    exact ⟨hmain now, by rw [hmain now, hmain now₂]⟩

/-- Witness for end_call_unknown_and_completed: a concrete registry with
one completed session, probed with an unknown id and the completed id at
two different times. -/
theorem end_call_unknown_and_completed_witness :
    end_call env_empty c5_sm "missing" 3 = (c5_sm, {}, none) ∧
    end_call env_empty c5_sm "sess-1" 3
      = (c5_sm, {}, some (get_session_metrics c5_sess)) ∧
    end_call env_empty c5_sm "sess-1" 3 = end_call env_empty c5_sm "sess-1" 77 := by
  refine ⟨(end_call_unknown_and_completed env_empty c5_sm "missing" 3 77).1
      ⟨rfl, rfl⟩, ?_, ?_⟩
  · exact ((end_call_unknown_and_completed env_empty c5_sm "sess-1" 3 77).2
      c5_sess rfl).1
  · exact ((end_call_unknown_and_completed env_empty c5_sm "sess-1" 3 77).2
      c5_sess rfl).2

/-! ### Claim C6 -/

/-- Once end_time is set, calculate_duration keeps it and recomputes the
same duration value, whatever "now" is. -/
theorem calculate_duration_frozen (s : PipecatSessionState) (e now : ℚ)
    (hend : s.end_time = some e) :
    (calculate_duration s now).duration_seconds = some (e - s.start_time) ∧
    (calculate_duration s now).end_time = some e ∧
    (calculate_duration s now).start_time = s.start_time := by
  simp [calculate_duration, hend]

/-- Claim C6 as stated is false: for a session whose duration was already
computed once and is exactly 0 (ghost counter 1, end_time frozen), marking
it completed runs the duration computation a second time — the falsy guard
`if not session.duration_seconds` treats 0.0 as unset — observable as the
ghost counter reaching 2. -/
theorem duration_zero_recomputed_cex :
    c6_sess.duration_seconds = some 0 ∧
    c6_sess.duration_computations = 1 ∧
    Option.map PipecatSessionState.duration_computations
        (dictGet (mark_completed { active_sessions := [("sess-1", c6_sess)] }
          "sess-1" 42).completed_sessions "sess-1")
      = some 2 := by
  refine ⟨rfl, rfl, ?_⟩
  simp [mark_completed, dictGet, dictSet, calculate_duration, truthyRat, c6_sess]

/-- The session update of the active end branch preserves the frozen
end_time and the start time, and reports the same duration value. -/
theorem end_call_update_session_duration (env : CompletionEnv)
    (session_id : String) (now : ℚ) (s : PipecatSessionState) (e : ℚ)
    (hend : s.end_time = some e)
    (hdur : s.duration_seconds = some (e - s.start_time)) :
    (end_call_update_session env session_id now s).1.end_time = some e ∧
    (end_call_update_session env session_id now s).1.start_time = s.start_time ∧
    (end_call_update_session env session_id now s).1.duration_seconds
      = some (e - s.start_time) := by
  cases ht : truthyRat s.duration_seconds with
  | true =>
      simp only [end_call_update_session, ht, if_true]
      simp [hend, hdur]
  | false =>
      have h1 := calculate_duration_frozen s e now hend
      by_cases hms : (calculate_duration s now).metrics_saved
      · simp only [end_call_update_session, ht, Bool.false_eq_true, if_false,
          hms, if_true]
        simp [h1.1, h1.2.1, h1.2.2]
      · simp only [end_call_update_session, ht, Bool.false_eq_true, if_false,
          hms, if_false]
        simp [h1.1, h1.2.1, h1.2.2]

/-- The duration value reported for the session an active-branch end call
moves to completed, when the duration was already assigned consistently
with the frozen end_time. -/
theorem end_call_active_duration (env : CompletionEnv) (sm : SessionManager)
    (session_id : String) (now : ℚ) (s : PipecatSessionState) (e : ℚ)
    (hend : s.end_time = some e)
    (hdur : s.duration_seconds = some (e - s.start_time)) :
    Option.map EndCallResult.duration_seconds
        (end_call_active env sm session_id now s).2.2
      = some (some (e - s.start_time)) := by
  obtain ⟨h1, h2, h3⟩ :=
    end_call_update_session_duration env session_id now s e hend hdur
  simp only [end_call_active, mark_completed, dictGet_set_self]
  cases ht : truthyRat
      (end_call_update_session env session_id now s).1.duration_seconds with
  | true => simp [get_session_metrics, ht, dictGet_set_self, h3]
  | false =>
      have h4 := (calculate_duration_frozen
        (end_call_update_session env session_id now s).1 e now h1).1
      simp [get_session_metrics, ht, dictGet_set_self, h4, h2]

/-- Claim C6 (amended): the VALUE of duration_seconds is set at most once:
once assigned (always together with a frozen end_time), later markCompleted
and end operations never change it, because any recomputation re-reads the
frozen end_time.  However, when the assigned value is exactly 0 the falsy
guards in markCompleted and end treat it as unset and re-run the duration
computation (see the counterexample); the re-run reproduces the same value. -/
theorem duration_value_stable (env : CompletionEnv) (sm : SessionManager)
    (session_id : String) (s : PipecatSessionState) (e now : ℚ)
    (hact : dictGet sm.active_sessions session_id = some s)
    (hcomp : dictGet sm.completed_sessions session_id = none)
    (hend : s.end_time = some e)
    (hdur : s.duration_seconds = some (e - s.start_time)) :
    Option.map PipecatSessionState.duration_seconds
        (dictGet (mark_completed sm session_id now).completed_sessions session_id)
      = some (some (e - s.start_time)) ∧
    Option.map EndCallResult.duration_seconds (end_call env sm session_id now).2.2
      = some (some (e - s.start_time)) := by
  constructor
  · simp only [mark_completed, hact]
    rw [dictGet_set_self]
    cases ht : truthyRat s.duration_seconds with
    | true => simp [ht, hdur]
    | false => simp [ht, (calculate_duration_frozen s e now hend).1]
  · have hgs : get_session sm session_id = some s := by simp [get_session, hact]
    simp only [end_call, hgs, get_completed_session, hcomp, get_active_session, hact]
    exact end_call_active_duration env sm session_id now s e hend hdur

/-- Witness for duration_value_stable: a session with a frozen end_time and
an assigned nonzero duration keeps the same duration value through
markCompleted and through end. -/
theorem duration_value_stable_witness :
    Option.map PipecatSessionState.duration_seconds
        (dictGet (mark_completed { active_sessions := [("sess-1", c6_wit_sess)] }
          "sess-1" 99).completed_sessions "sess-1")
      = some (some (10 - c6_wit_sess.start_time)) ∧
    Option.map EndCallResult.duration_seconds
        (end_call env_empty { active_sessions := [("sess-1", c6_wit_sess)] }
          "sess-1" 99).2.2
      = some (some (10 - c6_wit_sess.start_time)) := by
  have h := duration_value_stable env_empty
    { active_sessions := [("sess-1", c6_wit_sess)] } "sess-1" c6_wit_sess 10 99
    (by simp [dictGet]) rfl rfl (by norm_num [c6_wit_sess])
  exact h

/-! ### Claim C7 -/

/-- The code's recovery filter agrees pointwise with the predicate written
from the spec's words. -/
theorem recovery_filter_eq_spec (m : Msg) :
    (decide (m.role = some "user" ∨ m.role = some "assistant") &&
      truthyStr m.content) = decide (spec_recovery_keep m) := by
  cases hc : m.content with
  | none => simp [spec_recovery_keep, truthyStr, hc]
  | some c =>
      by_cases h : c = "" <;>
        simp [spec_recovery_keep, truthyStr, hc, h]

/-- Recovery rewrites the transcript to exactly the spec-filtered context
messages, in order. -/
theorem extract_from_context_transcript (s : PipecatSessionState)
    (msgs : List Msg) (hctx : s.llm_context = some msgs) :
    (extract_from_context s).transcript
      = msgs.filter (fun m => decide (spec_recovery_keep m)) := by
  simp only [extract_from_context, hctx]
  exact List.filter_congr (fun m _ => recovery_filter_eq_spec m)

/-- Claim C7: fallback transcript recovery runs only when the capture
buffer is empty — finalize never replaces a non-empty captured transcript —
and when it does run with a context log present, the recovered transcript
is exactly the context-log messages whose role is user or assistant and
whose content is non-empty, in their original order; the seeded system
turn fails the role filter and is dropped. -/
theorem transcript_recovery_spec (env : CompletionEnv) (s : PipecatSessionState)
    (now : ℚ) (msgs : List Msg) (hctx : s.llm_context = some msgs) :
    (s.transcript ≠ [] → (finalize env s now).1.transcript = s.transcript) ∧
    (s.transcript = [] →
      (finalize env s now).1.transcript
        = msgs.filter (fun m => decide (spec_recovery_keep m))) := by
  have hpres : (calculate_duration s now).transcript = s.transcript := rfl
  have hctx1 : (calculate_duration s now).llm_context = s.llm_context := rfl
  constructor
  · intro hne
    have hie : s.transcript.isEmpty = false := by
      cases h : s.transcript with
      | nil => exact absurd h hne
      | cons a l => rfl
    cases he : s.end_time with
    | none =>
        have h2 : (calculate_duration s now).transcript.isEmpty = false := by
          rw [hpres, hie]
        simp only [finalize, he, Option.isNone_none, if_true, h2,
          Bool.false_eq_true, if_false]
        split <;> simp [hpres]
    | some t0 =>
        simp only [finalize, he, Option.isNone_some, Bool.false_eq_true, if_false,
          hie]
        split <;> rfl
  · intro hemp
    have hie : s.transcript.isEmpty = true := by rw [hemp]; rfl
    cases he : s.end_time with
    | none =>
        have h2 : (calculate_duration s now).transcript.isEmpty = true := by
          rw [hpres, hie]
        have h3 := extract_from_context_transcript (calculate_duration s now) msgs
          (by rw [hctx1, hctx])
        simp only [finalize, he, Option.isNone_none, if_true, h2]
        split <;> simp [h3]
    | some t0 =>
        have h3 := extract_from_context_transcript s msgs hctx
        simp only [finalize, he, Option.isNone_some, Bool.false_eq_true, if_false,
          hie, if_true]
        split <;> simp [h3]

/-- Witness for transcript_recovery_spec: a non-empty captured transcript
survives finalize untouched, and a session with an empty capture buffer
recovers exactly the filtered context log. -/
theorem transcript_recovery_spec_witness :
    (finalize env_empty c7_sess_captured 0).1.transcript
      = c7_sess_captured.transcript ∧
    (finalize env_empty c7_sess 0).1.transcript
      = c7_ctx.filter (fun m => decide (spec_recovery_keep m)) := by
  constructor
  · exact (transcript_recovery_spec env_empty c7_sess_captured 0 c7_ctx rfl).1
      (by decide)
  · exact (transcript_recovery_spec env_empty c7_sess 0 c7_ctx rfl).2 rfl

/-! ### Claim C8 -/

/-- Claim C8: when no chars or tokens were metered, the completion cost
step estimates from duration — for duration_seconds = 600 it derives 3000
chars and 4000 total tokens split 2400/1600 input/output — and prices the
call from exactly those derived values (with the session's service and
model selections). -/
theorem cost_estimation_from_duration (s : PipecatSessionState)
    (hdur : s.duration_seconds = some 600)
    (hchars : s.total_chars_spoken = none)
    (hin : s.total_input_tokens = none)
    (hout : s.total_output_tokens = none) :
    calculate_cost_breakdown s
      = calculate_call_cost
          s.config.stt_config.service.value
          s.config.tts_config.service.value
          s.config.llm_config.service.value
          s.config.transport.value
          600 3000 4000
          (some (pyOrStr s.config.stt_config.model "nova-2"))
          (some (pyOrStr s.config.tts_config.model "sonic-english"))
          s.config.llm_config.model
          (some 2400) (some 1600) := by
  have h600 : pyOrRat (some (600 : ℚ)) 0 = 600 := by norm_num [pyOrRat]
  have e1 : pyTruncNat ((600 : ℚ) / 60 * 300) = 3000 := by
    rw [pyTruncNat, pyTrunc]
    norm_num
    rfl
  have e2 : pyTruncNat ((600 : ℚ) / 60 * 400) = 4000 := by
    rw [pyTruncNat, pyTrunc]
    norm_num
    rfl
  have e3 : pyTruncNat ((600 : ℚ) / 60 * 240) = 2400 := by
    rw [pyTruncNat, pyTrunc]
    norm_num
    rfl
  have e4 : pyTruncNat ((600 : ℚ) / 60 * 160) = 1600 := by
    rw [pyTruncNat, pyTrunc]
    norm_num
    rfl
  simp only [calculate_cost_breakdown, hdur, hchars, hin, hout, h600,
    e1, e2, e3, e4, Option.getD_none, Nat.add_zero]
  norm_num [pyOrNat]

/-- Witness for cost_estimation_from_duration at the ten-minute fixture. -/
theorem cost_estimation_from_duration_witness :
    calculate_cost_breakdown c8_sess
      = calculate_call_cost
          c8_sess.config.stt_config.service.value
          c8_sess.config.tts_config.service.value
          c8_sess.config.llm_config.service.value
          c8_sess.config.transport.value
          600 3000 4000
          (some (pyOrStr c8_sess.config.stt_config.model "nova-2"))
          (some (pyOrStr c8_sess.config.tts_config.model "sonic-english"))
          c8_sess.config.llm_config.model
          (some 2400) (some 1600) :=
  cost_estimation_from_duration c8_sess rfl rfl rfl rfl

/-! ### Claim C9 -/

/-- Claim C9: the cost calculation is pure and deterministic.  In the
embedding calculate_call_cost is a plain function of exactly the argument
tuple — faithful to the source, which reads only its parameters and the
constant class-level price tables — so two calls on the same tuple of
inputs return identical CostBreakdown values, with no dependence on any
state outside the arguments. -/
theorem calculate_call_cost_deterministic
    (stt_service tts_service llm_service transport_type : String)
    (duration_seconds : ℚ) (total_chars total_tokens : ℕ)
    (stt_model tts_model : Option String) (llm_model : String)
    (input_tokens output_tokens : Option ℕ) :
    calculate_call_cost stt_service tts_service llm_service transport_type
        duration_seconds total_chars total_tokens stt_model tts_model llm_model
        input_tokens output_tokens
      = calculate_call_cost stt_service tts_service llm_service transport_type
          duration_seconds total_chars total_tokens stt_model tts_model llm_model
          input_tokens output_tokens := rfl

/-! ### Claim C10 -/

/-- Claim C10 as stated is false: context-log recovery copies content
verbatim, without whitespace-stripping — a whitespace-only user turn in
the context log is appended to the transcript as an entry whose content
strips to the empty string. -/
theorem recovery_keeps_whitespace_content_cex :
    (finalize env_empty c10_sess 5).1.transcript
      = [{ role := some "user", content := some "   " }] ∧
    pyStrip "   " = "" := by
  constructor
  · rfl
  · rfl

/-- Claim C10 (amended): entries appended by the live capture processor
have role user (speech path) or assistant (response path) and non-empty,
whitespace-stripped content; entries introduced by context-log recovery
have role user or assistant and non-empty content, but their content is
copied verbatim — it is not whitespace-stripped, so it may carry
surrounding whitespace or consist of whitespace only. -/
theorem transcript_entry_roles_and_content (s : PipecatSessionState)
    (text time_stamp : String) (msgs : List Msg)
    (hctx : s.llm_context = some msgs) :
    ((capture_user_speech s text time_stamp).transcript = s.transcript ∨
      (pyStrip text ≠ "" ∧
        (capture_user_speech s text time_stamp).transcript
          = s.transcript ++
            [{ role := some "user", content := some (pyStrip text),
               timestamp := some time_stamp }])) ∧
    ((capture_bot_response s text time_stamp).transcript = s.transcript ∨
      (pyStrip text ≠ "" ∧
        (capture_bot_response s text time_stamp).transcript
          = s.transcript ++
            [{ role := some "assistant", content := some (pyStrip text),
               timestamp := some time_stamp }])) ∧
    (∀ m ∈ (extract_from_context s).transcript,
      (m.role = some "user" ∨ m.role = some "assistant") ∧
        m.content ≠ none ∧ m.content ≠ some "") := by
  refine ⟨?_, ?_, ?_⟩
  · by_cases h : text ≠ "" ∧ pyStrip text ≠ ""
    · right
      exact ⟨h.2, by simp [capture_user_speech, h, add_transcript_message]⟩
    · left
      simp [capture_user_speech, h]
  · by_cases h : text ≠ "" ∧ pyStrip text ≠ ""
    · right
      exact ⟨h.2, by simp [capture_bot_response, h, add_transcript_message]⟩
    · left
      simp [capture_bot_response, h]
  · intro m hm
    simp only [extract_from_context, hctx] at hm
    have hf := (List.mem_filter.mp hm).2
    have hroles := (Bool.and_eq_true _ _ |>.mp hf).1
    have hcont := (Bool.and_eq_true _ _ |>.mp hf).2
    refine ⟨of_decide_eq_true hroles, ?_, ?_⟩
    · cases hc : m.content with
      | none => rw [hc] at hcont; simp [truthyStr] at hcont
      | some c => simp [hc]
    · cases hc : m.content with
      | none => simp [hc]
      | some c =>
          rw [hc] at hcont
          have : c ≠ "" := by simpa [truthyStr] using hcont
          simp [hc, this]

/-- Witness for transcript_entry_roles_and_content: the capture processor
appends the stripped user turn " hi " as "hi", and recovery over c10_ctx
yields only user/assistant entries with non-empty content. -/
theorem transcript_entry_roles_and_content_witness :
    ((capture_user_speech c10_wit_sess " hi " "t1").transcript
        = c10_wit_sess.transcript ∨
      (pyStrip " hi " ≠ "" ∧
        (capture_user_speech c10_wit_sess " hi " "t1").transcript
          = c10_wit_sess.transcript ++
            [{ role := some "user", content := some (pyStrip " hi "),
               timestamp := some "t1" }])) ∧
    ((capture_bot_response c10_wit_sess " hi " "t1").transcript
        = c10_wit_sess.transcript ∨
      (pyStrip " hi " ≠ "" ∧
        (capture_bot_response c10_wit_sess " hi " "t1").transcript
          = c10_wit_sess.transcript ++
            [{ role := some "assistant", content := some (pyStrip " hi "),
               timestamp := some "t1" }])) ∧
    (∀ m ∈ (extract_from_context c10_wit_sess).transcript,
      (m.role = some "user" ∨ m.role = some "assistant") ∧
        m.content ≠ none ∧ m.content ≠ some "") :=
  transcript_entry_roles_and_content c10_wit_sess " hi " "t1" c10_ctx rfl

end AiVoiceAgent
